import Mathlib

/-!
Shallow embedding of `src/src/telegram.js` (the `Telegram` facade class).

The facade composes two externally supplied layers: a transport layer
(`MTProto`, wire protocol and cryptography) and a schema layer (`TL`, the
type-language implementation).  Both are received at construction time and
held as references; the only other field the class ever writes is
`this.schema`, assigned at the end of `useSchema`.

Modelling decisions, each visible in the definitions below:
* JavaScript objects holding a flat `name -> declaration` mapping become
  association lists; `undefined` inputs become `none`.
* The namespace tree produced by the schema layer's Type Builder becomes the
  inductive `Node`.
* JavaScript reference semantics for the stored schema (needed to talk about
  a client keeping the object it was given while the facade moves on) is made
  explicit with a small heap of `ImportedSchema` objects addressed by `Nat`;
  `useSchema` allocates a fresh object, it never writes through an old
  address.
* Calls into the external layers are recorded as explicit events (`MTCall`,
  `BuildCall`) alongside the value each method returns, so that delegation
  claims ("exactly one call, arguments unmodified") are statements about the
  recorded call list.
* A thrown JavaScript exception becomes an `Except` error; the state-level
  wrapper `useSchemaRun` makes explicit which state survives an exception
  (the source assigns `this.schema` only after both builder calls return).
-/

namespace TelegramJS

/-- Declarations in a schema description (`schema.constructors[name]`,
`schema.methods[name]`) are opaque values interpreted only by the external
Type Builder; the facade never inspects them.  They are represented
abstractly as strings. -/
abbrev Decl := String

/-- A flat dotted-name mapping, one of the two collections of a schema
description (a JavaScript object, modelled as an association list). -/
abbrev Mapping := List (String × Decl)

/-- A node of the namespace tree: either a branch (a namespace segment with
children keyed by the next path segment) or a leaf (a resolved type or
method declaration).  Each node carries its `_id`, the fully qualified
dotted path. -/
inductive Node where
  | branch (id : String) (children : List (String × Node))
  | leaf (id : String) (decl : Decl)

/-- The `_id` field of a node. -/
def Node.getId : Node → String
  | .branch i _ => i
  | .leaf i _ => i

/-- The argument of `useSchema`: an object carrying the two flat
collections; either may be absent (`undefined`). -/
structure SchemaDescription where
  constructors : Option Mapping
  methods : Option Mapping

/-- Errors raised by the schema layer's Type Builder. -/
inductive SchemaError where
  | missingMapping
  | collision
  | emptyPath
deriving DecidableEq

/-- Child lookup in a branch's association list. -/
def lookupChild (cs : List (String × Node)) (s : String) : Option Node :=
  match cs with
  | [] => none
  | (k, n) :: rest => if k = s then some n else lookupChild rest s

/-- Replace the child stored under key `s`. -/
def setChild (cs : List (String × Node)) (s : String) (n : Node) :
    List (String × Node) :=
  match cs with
  | [] => []
  | (k, c) :: rest =>
    if k = s then (k, n) :: rest else (k, c) :: setChild rest s n

/-- Split a character list at dots, accumulating the current segment in
reverse. -/
def splitDots : List Char → List Char → List String
  | [], acc => [String.mk acc.reverse]
  | c :: rest, acc =>
    if c = '.' then String.mk acc.reverse :: splitDots rest []
    else splitDots rest (c :: acc)

/-- Split a dotted declaration name into its path segments. -/
def splitPath (s : String) : List String :=
  splitDots s.data []

/-- Insert one declaration along its split path below a branch whose `_id`
is `i` and whose children are `cs`, creating intermediate branches on
demand; a path segment already occupied by a leaf, or a final segment
already occupied at all, is a collision. -/
def insertChildren (i : String) (cs : List (String × Node))
    (segs : List String) (d : Decl) :
    Except SchemaError (List (String × Node)) :=
  match segs with
  | [] => .error .emptyPath
  | [s] =>
    match lookupChild cs s with
    | none => .ok (cs ++ [(s, .leaf (i ++ "." ++ s) d)])
    | some _ => .error .collision
  | s :: s2 :: rest =>
    match lookupChild cs s with
    | some (.leaf _ _) => .error .collision
    | some (.branch ci ccs) =>
      (insertChildren ci ccs (s2 :: rest) d).map fun ccs' =>
        setChild cs s (.branch ci ccs')
    | none =>
      (insertChildren (i ++ "." ++ s) [] (s2 :: rest) d).map fun ccs' =>
        cs ++ [(s, .branch (i ++ "." ++ s) ccs')]

/-- Insert one declaration into a namespace tree; the root must be a
branch. -/
def insertDecl : Node → List String → Decl → Except SchemaError Node
  | .leaf _ _, _, _ => .error .collision
  | .branch i cs, segs, d => (insertChildren i cs segs d).map (Node.branch i)

/-- Insert every declaration of a flat mapping in order. -/
def insertAll (root : Node) (m : Mapping) : Except SchemaError Node :=
  match m with
  | [] => .ok root
  | (name, d) :: rest =>
    match insertDecl root (splitPath name) d with
    | .error e => .error e
    | .ok root' => insertAll root' rest

/-- Modelled from the spec: `TL.TypeBuilder.buildTypes` belongs to the
external schema layer (`this.TL`), whose source is not part of this
repository.  Per the spec it expands the flat dotted-name mapping into the
nested namespace tree rooted at the given node, in place; it fails with a
`SchemaError` when the mapping is missing, or when a declared name collides
with a non-branch node already occupying a path segment.  The second
argument (always `null` at the facade's call sites) and the is-service flag
select leaf interpretation in the schema layer and do not affect the tree
shape modelled here. -/
def buildTypesModel (m : Option Mapping) (_types : Option (List String))
    (root : Node) (_isService : Bool) : Except SchemaError Node :=
  match m with
  | none => .error .missingMapping
  | some decls => insertAll root decls

/-- The Type Builder capability of the schema layer
(`TL.TypeBuilder.buildTypes`), an arbitrary function of the external
layer. -/
structure TypeBuilderCap where
  buildTypes : Option Mapping → Option (List String) → Node → Bool →
    Except SchemaError Node

/-- The schema layer reference (`TL`), as consumed by the facade. -/
structure TLLayer where
  TypeBuilder : TypeBuilderCap

/-- A byte buffer. -/
abbrev Buffer := List Nat

/-- An opaque credential object owned by the transport layer; the facade
only requests its construction or decryption. -/
structure AuthKey where
  raw : String

/-- The `MTProto.auth.AuthKey` capability: the class constructor
(`new AuthKey(id, body)`) and the static `decryptAuthKey`. -/
structure AuthKeyCap where
  make : String → String → AuthKey
  decryptAuthKey : Buffer → String → AuthKey

/-- The `MTProto.auth` sub-object. -/
structure MTProtoAuth where
  AuthKey : AuthKeyCap

/-- The `MTProto.utility` sub-object.  A missing `length` argument
(`undefined` in the source) is `none`. -/
structure MTProtoUtility where
  string2Buffer : String → Option Nat → Buffer
  buffer2String : Buffer → Option Nat → String
  createRandomBuffer : Nat → Buffer

/-- The transport layer reference (`MTProto`), as consumed by the facade.
`MTProto.security.PublicKey.addKey` mutates the transport layer's internal
key store, state external to this module; that call is observed through the
recorded `MTCall.addKey` event rather than through a function field. -/
structure MTProtoLayer where
  auth : MTProtoAuth
  utility : MTProtoUtility

/-- One recorded call into the transport layer. -/
inductive MTCall where
  | addKey (fingerprint modulus exponent : String)
  | newAuthKey (authKeyId authKeyBody : String)
  | decryptAuthKey (keyBuffer : Buffer) (keyPassword : String)
  | string2Buffer (s : String) (length : Option Nat)
  | buffer2String (b : Buffer) (length : Option Nat)
  | createRandomBuffer (size : Nat)

/-- One recorded call into the schema layer's Type Builder, with the exact
arguments passed. -/
structure BuildCall where
  mapping : Option Mapping
  typesArg : Option (List String)
  root : Node
  isService : Bool

/-- The result of one schema import: the two root namespace nodes. -/
structure ImportedSchema where
  type : Node
  service : Node

/-- The heap of `ImportedSchema` objects, making JavaScript reference
semantics explicit; an address is an index into `objs`. -/
structure Heap where
  objs : List ImportedSchema

/-- Dereference an address. -/
def Heap.get? (h : Heap) (a : Nat) : Option ImportedSchema :=
  h.objs[a]?

/-- Allocate a fresh object, returning the new heap and its address. -/
def Heap.alloc (h : Heap) (s : ImportedSchema) : Heap × Nat :=
  (⟨h.objs ++ [s]⟩, h.objs.length)

/-- The key config passed to `addPublicKey`. -/
structure KeyDescriptor where
  fingerprint : String
  modulus : String
  exponent : String

/-- The facade's state: the two layer references stored by the constructor
and `this.schema`, the address of the most recently imported schema
(`none` while still `undefined`). -/
structure Telegram where
  MTProto : MTProtoLayer
  TL : TLLayer
  schema : Option Nat

/-- Modelled from the spec: `TelegramClient` is instantiated by
`createClient` but defined outside this repository's `src/`.  Per the spec
a client instance holds references to the `ImportedSchema` snapshot passed
at creation time, the transport layer and the schema layer. -/
structure TelegramClient where
  schema : Option Nat
  MTProto : MTProtoLayer
  TL : TLLayer

/-- The `Telegram` constructor: throws
`Error('You must invoke new Telegram(MTProto, TypeLanguage)')` when either
layer reference is absent, otherwise stores the two references;
`this.schema` is still `undefined`. -/
def Telegram.construct (mtProto : Option MTProtoLayer)
    (tl : Option TLLayer) : Except String Telegram :=
  match mtProto, tl with
  | some m, some t => .ok { MTProto := m, TL := t, schema := none }
  | _, _ => .error "You must invoke new Telegram(MTProto, TypeLanguage)"

/-- `Telegram.useSchema(schema, typePrefix, servicePrefix)`: builds the
root `{_id: typePrefix}`, calls `buildTypes(schema.constructors, null,
type, false)`, builds the root `{_id: servicePrefix}`, calls
`buildTypes(schema.methods, null, service, true)`, then assigns
`this.schema = { type, service }` (a freshly allocated object).  The
returned list records the builder calls made, in order. -/
def Telegram.useSchemaT (h : Heap) (tg : Telegram)
    (schema : SchemaDescription)
    ( typePrefix : String := "Telegram.type")
    ( servicePrefix : String := "Telegram.service") :
    Except SchemaError (Heap × Telegram) × List BuildCall :=
  let buildTypes := tg.TL.TypeBuilder.buildTypes
  let type0 : Node := .branch typePrefix []
  let call1 : BuildCall := ⟨schema.constructors, none, type0, false⟩
  match buildTypes schema.constructors none type0 false with
  | .error e => (.error e, [call1])
  | .ok type =>
    let service0 : Node := .branch servicePrefix []
    let call2 : BuildCall := ⟨schema.methods, none, service0, true⟩
    match buildTypes schema.methods none service0 true with
    | .error e => (.error e, [call1, call2])
    | .ok service =>
      let alloc := h.alloc ⟨type, service⟩
      (.ok (alloc.1, { tg with schema := some alloc.2 }), [call1, call2])

/-- The state-level view of one `useSchema` call: when an exception
propagates out of a builder call, the heap and the facade are exactly as
before, because the single write `this.schema = { type, service }` is the
last statement of the method. -/
def Telegram.useSchemaRun (h : Heap) (tg : Telegram)
    (schema : SchemaDescription)
    ( typePrefix : String := "Telegram.type")
    ( servicePrefix : String := "Telegram.service") :
    Except SchemaError Unit × Heap × Telegram :=
  match Telegram.useSchemaT h tg schema typePrefix servicePrefix with
  | (.error e, _) => (.error e, h, tg)
  | (.ok (h', tg'), _) => (.ok (), h', tg')

/-- `createClient()`: `new TelegramClient(this.schema, this.MTProto,
this.TL)`.  The method reads `this.schema` as it currently is (possibly
still `undefined`) and writes no field. -/
def Telegram.createClient (tg : Telegram) : TelegramClient × Telegram :=
  ({ schema := tg.schema, MTProto := tg.MTProto, TL := tg.TL }, tg)

/-- `addPublicKey(key)`: destructures `{fingerprint, modulus, exponent}`
from the argument and performs the single call
`this.MTProto.security.PublicKey.addKey({fingerprint, modulus,
exponent})`. -/
def Telegram.addPublicKey (tg : Telegram) (key : KeyDescriptor) :
    List MTCall × Telegram :=
  ([.addKey key.fingerprint key.modulus key.exponent], tg)

/-- `createAuthKey(authKeyId, authKeyBody)`:
`new this.MTProto.auth.AuthKey(authKeyId, authKeyBody)`. -/
def Telegram.createAuthKey (tg : Telegram)
    (authKeyId authKeyBody : String) : AuthKey × List MTCall × Telegram :=
  (tg.MTProto.auth.AuthKey.make authKeyId authKeyBody,
   [.newAuthKey authKeyId authKeyBody], tg)

/-- `decryptKey(keyBuffer, keyPassword)`:
`this.MTProto.auth.AuthKey.decryptAuthKey(keyBuffer, keyPassword)`. -/
def Telegram.decryptKey (tg : Telegram) (keyBuffer : Buffer)
    (keyPassword : String) : AuthKey × List MTCall × Telegram :=
  (tg.MTProto.auth.AuthKey.decryptAuthKey keyBuffer keyPassword,
   [.decryptAuthKey keyBuffer keyPassword], tg)

/-- `string2Buffer(string, length)`: direct delegation to
`this.MTProto.utility.string2Buffer`. -/
def Telegram.string2Buffer (tg : Telegram) (s : String)
    (length : Option Nat) : Buffer × List MTCall × Telegram :=
  (tg.MTProto.utility.string2Buffer s length, [.string2Buffer s length], tg)

/-- `buffer2String(buffer, length)`: direct delegation to
`this.MTProto.utility.buffer2String`. -/
def Telegram.buffer2String (tg : Telegram) (b : Buffer)
    (length : Option Nat) : String × List MTCall × Telegram :=
  (tg.MTProto.utility.buffer2String b length, [.buffer2String b length], tg)

/-- `createRandomPassword(size = 128)`:
`let buffer = util.createRandomBuffer(size); return
util.buffer2String(buffer)` (the second call passes no length). -/
def Telegram.createRandomPassword (tg : Telegram) (size : Nat := 128) :
    String × List MTCall × Telegram :=
  let util := tg.MTProto.utility
  let buffer := util.createRandomBuffer size
  (util.buffer2String buffer none,
   [.createRandomBuffer size, .buffer2String buffer none], tg)

/-- A concrete `AuthKey` capability used to instantiate theorems on
concrete inputs. -/
def sampleAuthKeyCap : AuthKeyCap :=
  ⟨(fun i b => ⟨i ++ b⟩), (fun _ p => ⟨p⟩)⟩

/-- A concrete utility capability used to instantiate theorems on concrete
inputs. -/
def sampleUtility : MTProtoUtility :=
  ⟨(fun _ _ => []), (fun b _ => toString b.length),
   (fun n => List.replicate n 0)⟩

/-- A concrete transport layer used to instantiate theorems on concrete
inputs. -/
def sampleMT : MTProtoLayer := ⟨⟨sampleAuthKeyCap⟩, sampleUtility⟩

/-- A schema layer whose Type Builder is the spec-modelled one. -/
def tlModel : TLLayer := ⟨⟨buildTypesModel⟩⟩

/-- A schema layer whose Type Builder never fails and adds nothing: it
returns the root it was given for every input, including a missing
mapping. -/
def tlBlind : TLLayer := ⟨⟨fun _ _ root _ => .ok root⟩⟩

/-- The empty heap. -/
def heap0 : Heap := ⟨[]⟩

/-- A heap already holding one imported schema at address 0. -/
def heap1 : Heap :=
  ⟨[⟨Node.branch "old.type" [], Node.branch "old.service" []⟩]⟩

/-- A freshly constructed facade over the spec-modelled schema layer. -/
def facModel : Telegram := ⟨sampleMT, tlModel, none⟩

/-- A freshly constructed facade over the never-failing schema layer. -/
def facBlind : Telegram := ⟨sampleMT, tlBlind, none⟩

/-- The facade `facModel` after a first import stored at address 0. -/
def facModel0 : Telegram := ⟨sampleMT, tlModel, some 0⟩

theorem insertDecl_ok_shape (i : String) (cs : List (String × Node))
    (segs : List String) (d : Decl) (r : Node)
    (h : insertDecl (Node.branch i cs) segs d = Except.ok r) :
    ∃ cs', r = Node.branch i cs' := by
  simp only [insertDecl] at h
  cases hc : insertChildren i cs segs d with
  | error e => rw [hc] at h; simp [Except.map] at h
  | ok ccs =>
    rw [hc] at h
    simp only [Except.map, Except.ok.injEq] at h
    exact ⟨ccs, h.symm⟩

theorem insertAll_ok_shape (m : Mapping) :
    ∀ (i : String) (cs : List (String × Node)) (r : Node),
      insertAll (Node.branch i cs) m = Except.ok r →
      ∃ cs', r = Node.branch i cs' := by
  induction m with
  | nil =>
    intro i cs r h
    simp only [insertAll, Except.ok.injEq] at h
    exact ⟨cs, h.symm⟩
  | cons nd rest ih =>
    intro i cs r h
    obtain ⟨name, d⟩ := nd
    simp only [insertAll] at h
    cases hd : insertDecl (Node.branch i cs) (splitPath name) d with
    | error e => rw [hd] at h; simp at h
    | ok root' =>
      rw [hd] at h
      obtain ⟨cs'', rfl⟩ := insertDecl_ok_shape i cs _ d root' hd
      exact ih i cs'' r h

theorem buildTypesModel_ok_getId (m : Option Mapping)
    (t : Option (List String)) (i : String) (cs : List (String × Node))
    (b : Bool) (r : Node)
    (h : buildTypesModel m t (Node.branch i cs) b = Except.ok r) :
    r.getId = i := by
  cases m with
  | none => simp [buildTypesModel] at h
  | some decls =>
    simp only [buildTypesModel] at h
    obtain ⟨cs', rfl⟩ := insertAll_ok_shape decls i cs r h
    rfl

theorem useSchemaT_ok (h : Heap) (tg : Telegram)
    (schema : SchemaDescription) ( typePrefix servicePrefix : String)
    (h' : Heap) (tg' : Telegram) (tr : List BuildCall)
    (hok : Telegram.useSchemaT h tg schema typePrefix servicePrefix =
      (.ok (h', tg'), tr)) :
    ∃ type service,
      tg.TL.TypeBuilder.buildTypes schema.constructors none
        (Node.branch typePrefix []) false = .ok type ∧
      tg.TL.TypeBuilder.buildTypes schema.methods none
        (Node.branch servicePrefix []) true = .ok service ∧
      h' = ⟨h.objs ++ [⟨type, service⟩]⟩ ∧
      tg' = { tg with schema := some h.objs.length } ∧
      tr = [⟨schema.constructors, none, Node.branch typePrefix [], false⟩,
            ⟨schema.methods, none, Node.branch servicePrefix [], true⟩] := by
  simp only [Telegram.useSchemaT, Heap.alloc] at hok
  cases hc1 : tg.TL.TypeBuilder.buildTypes schema.constructors none
      (Node.branch typePrefix []) false with
  | error e => rw [hc1] at hok; simp at hok
  | ok type =>
    rw [hc1] at hok
    cases hc2 : tg.TL.TypeBuilder.buildTypes schema.methods none
        (Node.branch servicePrefix []) true with
    | error e => rw [hc2] at hok; simp at hok
    | ok service =>
      rw [hc2] at hok
      simp only [Prod.mk.injEq, Except.ok.injEq] at hok
      obtain ⟨⟨hh, htg⟩, htr⟩ := hok
      exact ⟨type, service, rfl, rfl, hh.symm, htg.symm, htr.symm⟩

/-- C7: the `Telegram` constructor fails exactly when the transport-layer
reference or the schema-layer reference is absent; when both references are
present, construction succeeds and the facade stores exactly those two
references (with `this.schema` still undefined). -/
theorem construct_missing_ref (mtProto : Option MTProtoLayer)
    (tl : Option TLLayer) :
    ((∃ e, Telegram.construct mtProto tl = .error e) ↔
      (mtProto = none ∨ tl = none)) ∧
    (∀ m t, mtProto = some m → tl = some t →
      Telegram.construct mtProto tl =
        .ok { MTProto := m, TL := t, schema := none }) := by
  constructor
  · cases mtProto <;> cases tl <;> simp [Telegram.construct]
  · intro m t hm ht
    subst hm
    subst ht
    rfl

/-- C7 witness: at a concrete pair of present layer references the
constructor succeeds and stores exactly those references. -/
theorem construct_missing_ref_witness :
    Telegram.construct (some sampleMT) (some tlModel) =
      .ok { MTProto := sampleMT, TL := tlModel, schema := none } :=
  (construct_missing_ref (some sampleMT) (some tlModel)).2
    sampleMT tlModel rfl rfl

/-- C8: for every key descriptor, `addPublicKey` performs exactly one call
into the transport layer's key store, forwarding the descriptor's
fingerprint, modulus and exponent unmodified, with no validation or
transformation of its own (and no change to the facade). -/
theorem addPublicKey_delegation (tg : Telegram) (key : KeyDescriptor) :
    Telegram.addPublicKey tg key =
      ([MTCall.addKey key.fingerprint key.modulus key.exponent], tg) := rfl

/-- C9: for every size, `createRandomPassword` returns exactly the
composition of the two transport-layer utility calls — generate a
`size`-byte random buffer, then encode that buffer as a string — records
exactly those two calls in that order, and an omitted size defaults to
128. -/
theorem createRandomPassword_composes (tg : Telegram) (size : Nat) :
    (Telegram.createRandomPassword tg size).1 =
      tg.MTProto.utility.buffer2String
        (tg.MTProto.utility.createRandomBuffer size) none ∧
    (Telegram.createRandomPassword tg size).2.1 =
      [MTCall.createRandomBuffer size,
       MTCall.buffer2String
         (tg.MTProto.utility.createRandomBuffer size) none] ∧
    Telegram.createRandomPassword tg = Telegram.createRandomPassword tg 128 :=
  ⟨rfl, rfl, rfl⟩

/-- C10: after construction the layer references are never reassigned and
the only facade field any public operation writes is the stored schema,
written solely by `useSchema`: every other operation returns the facade
exactly as it received it, and `useSchema` preserves the `MTProto` and `TL`
references in every outcome. -/
theorem facade_frame (h : Heap) (tg : Telegram) (schema : SchemaDescription)
    ( typePrefix servicePrefix : String) (key : KeyDescriptor)
    (authKeyId authKeyBody : String) (keyBuffer : Buffer)
    (keyPassword : String) (s : String) (len : Option Nat) (b : Buffer)
    (size : Nat) :
    (Telegram.createClient tg).2 = tg ∧
    (Telegram.addPublicKey tg key).2 = tg ∧
    (Telegram.createAuthKey tg authKeyId authKeyBody).2.2 = tg ∧
    (Telegram.decryptKey tg keyBuffer keyPassword).2.2 = tg ∧
    (Telegram.string2Buffer tg s len).2.2 = tg ∧
    (Telegram.buffer2String tg b len).2.2 = tg ∧
    (Telegram.createRandomPassword tg size).2.2 = tg ∧
    (Telegram.useSchemaRun h tg schema typePrefix servicePrefix).2.2.MTProto
      = tg.MTProto ∧
    (Telegram.useSchemaRun h tg schema typePrefix servicePrefix).2.2.TL
      = tg.TL := by
  refine ⟨rfl, rfl, rfl, rfl, rfl, rfl, rfl, ?_, ?_⟩ <;>
  · simp only [Telegram.useSchemaRun, Telegram.useSchemaT, Heap.alloc]
    cases tg.TL.TypeBuilder.buildTypes schema.constructors none
        (Node.branch typePrefix []) false with
    | error e => rfl
    | ok type =>
      cases tg.TL.TypeBuilder.buildTypes schema.methods none
          (Node.branch servicePrefix []) true with
      | error e => rfl
      | ok service => rfl

/-- C4: `useSchema` is atomic with respect to the stored schema: whenever a
builder call raises, the heap and the facade — in particular any previously
stored schema, including none at all — are exactly as before the call; the
stored schema is updated (to the address of the freshly allocated pair)
only when both branch expansions complete. -/
theorem useSchema_atomic (h : Heap) (tg : Telegram)
    (schema : SchemaDescription) ( typePrefix servicePrefix : String) :
    (∀ e, (Telegram.useSchemaRun h tg schema typePrefix servicePrefix).1 =
        .error e →
      (Telegram.useSchemaRun h tg schema typePrefix servicePrefix).2 =
        (h, tg)) ∧
    (∀ h' tg' tr,
      Telegram.useSchemaT h tg schema typePrefix servicePrefix =
        (.ok (h', tg'), tr) →
      tg'.schema = some h.objs.length) := by
  constructor
  · intro e he
    unfold Telegram.useSchemaRun at he ⊢
    cases hu : Telegram.useSchemaT h tg schema typePrefix servicePrefix with
    | mk r tr =>
      rw [hu] at he
      cases r with
      | error e' => rfl
      | ok p =>
        obtain ⟨h', tg'⟩ := p
        exact Except.noConfusion he
  · intro h' tg' tr hok
    obtain ⟨type, service, -, -, -, htg, -⟩ :=
      useSchemaT_ok h tg schema typePrefix servicePrefix h' tg' tr hok
    rw [htg]

/-- C4 witness: a concrete import whose `methods` collection is undefined
fails in the second builder call and leaves the heap and the facade exactly
as they were. -/
theorem useSchema_atomic_witness :
    (Telegram.useSchemaRun heap0 facModel ⟨some [], none⟩ "p" "q").1 =
      .error SchemaError.missingMapping ∧
    (Telegram.useSchemaRun heap0 facModel ⟨some [], none⟩ "p" "q").2 =
      (heap0, facModel) :=
  ⟨rfl, (useSchema_atomic heap0 facModel ⟨some [], none⟩ "p" "q").1
    SchemaError.missingMapping rfl⟩

/-- C1: with the spec-modelled Type Builder, every `useSchema` call that
produces an `ImportedSchema` stores one whose type root has `_id` equal to
the supplied type prefix and whose service root has `_id` equal to the
supplied service prefix; omitted prefixes default to exactly
"Telegram.type" and "Telegram.service". -/
theorem useSchema_root_ids (h : Heap) (tg : Telegram)
    (schema : SchemaDescription) ( typePrefix servicePrefix : String)
    (h' : Heap) (tg' : Telegram) (tr : List BuildCall)
    (hbt : tg.TL.TypeBuilder.buildTypes = buildTypesModel)
    (hok : Telegram.useSchemaT h tg schema typePrefix servicePrefix =
      (.ok (h', tg'), tr)) :
    (∃ imp, tg'.schema = some h.objs.length ∧
      h'.get? h.objs.length = some imp ∧
      imp.type.getId = typePrefix ∧ imp.service.getId = servicePrefix) ∧
    Telegram.useSchemaT h tg schema =
      Telegram.useSchemaT h tg schema "Telegram.type" "Telegram.service" := by
  refine ⟨?_, rfl⟩
  obtain ⟨type, service, hc1, hc2, hh, htg, -⟩ :=
    useSchemaT_ok h tg schema typePrefix servicePrefix h' tg' tr hok
  rw [hbt] at hc1 hc2
  refine ⟨⟨type, service⟩, ?_, ?_, ?_, ?_⟩
  · rw [htg]
  · rw [hh]
    exact List.getElem?_concat_length h.objs ⟨type, service⟩
  · exact buildTypesModel_ok_getId _ _ _ _ _ _ hc1
  · exact buildTypesModel_ok_getId _ _ _ _ _ _ hc2

/-- C1 witness: a concrete import with prefixes "A.t" and "A.s". -/
theorem useSchema_root_ids_witness :
    (∃ imp, facModel0.schema = some heap0.objs.length ∧
      (Heap.mk [⟨Node.branch "A.t" [], Node.branch "A.s" []⟩]).get?
        heap0.objs.length = some imp ∧
      imp.type.getId = "A.t" ∧ imp.service.getId = "A.s") ∧
    Telegram.useSchemaT heap0 facModel ⟨some [], some []⟩ =
      Telegram.useSchemaT heap0 facModel ⟨some [], some []⟩
        "Telegram.type" "Telegram.service" :=
  useSchema_root_ids heap0 facModel ⟨some [], some []⟩ "A.t" "A.s"
    ⟨[⟨Node.branch "A.t" [], Node.branch "A.s" []⟩]⟩ facModel0
    [⟨some [], none, Node.branch "A.t" [], false⟩,
     ⟨some [], none, Node.branch "A.s" [], true⟩]
    rfl rfl

/-- C6: every `useSchema` call that completes invokes the Type Builder
exactly twice — first expanding `schema.constructors` into the type root
with the is-service flag false, then expanding `schema.methods` into the
service root with the is-service flag true — and the resulting pair
replaces the stored schema wholesale: the facade ends up pointing at a
freshly allocated pair built only from the two builder results, with no
merging with any previous import. -/
theorem useSchema_two_builder_calls (h : Heap) (tg : Telegram)
    (schema : SchemaDescription) ( typePrefix servicePrefix : String)
    (h' : Heap) (tg' : Telegram) (tr : List BuildCall)
    (hok : Telegram.useSchemaT h tg schema typePrefix servicePrefix =
      (.ok (h', tg'), tr)) :
    tr = [⟨schema.constructors, none, Node.branch typePrefix [], false⟩,
          ⟨schema.methods, none, Node.branch servicePrefix [], true⟩] ∧
    ∃ type service,
      tg.TL.TypeBuilder.buildTypes schema.constructors none
        (Node.branch typePrefix []) false = .ok type ∧
      tg.TL.TypeBuilder.buildTypes schema.methods none
        (Node.branch servicePrefix []) true = .ok service ∧
      h'.objs = h.objs ++ [⟨type, service⟩] ∧
      tg'.schema = some h.objs.length := by
  obtain ⟨type, service, hc1, hc2, hh, htg, htr⟩ :=
    useSchemaT_ok h tg schema typePrefix servicePrefix h' tg' tr hok
  refine ⟨htr, type, service, hc1, hc2, ?_, ?_⟩
  · rw [hh]
  · rw [htg]

/-- C6 witness: a concrete import through the never-failing builder with
prefixes "B.t" and "B.s". -/
theorem useSchema_two_builder_calls_witness :
    ([⟨some [], none, Node.branch "B.t" [], false⟩,
      ⟨some [], none, Node.branch "B.s" [], true⟩] :
        List BuildCall) =
      [⟨some [], none, Node.branch "B.t" [], false⟩,
       ⟨some [], none, Node.branch "B.s" [], true⟩] ∧
    ∃ type service,
      facBlind.TL.TypeBuilder.buildTypes (some []) none
        (Node.branch "B.t" []) false = .ok type ∧
      facBlind.TL.TypeBuilder.buildTypes (some []) none
        (Node.branch "B.s" []) true = .ok service ∧
      (Heap.mk [⟨Node.branch "B.t" [], Node.branch "B.s" []⟩]).objs =
        heap0.objs ++ [⟨type, service⟩] ∧
      (Telegram.mk sampleMT tlBlind (some 0)).schema =
        some heap0.objs.length :=
  useSchema_two_builder_calls heap0 facBlind ⟨some [], some []⟩ "B.t" "B.s"
    ⟨[⟨Node.branch "B.t" [], Node.branch "B.s" []⟩]⟩
    ⟨sampleMT, tlBlind, some 0⟩
    [⟨some [], none, Node.branch "B.t" [], false⟩,
     ⟨some [], none, Node.branch "B.s" [], true⟩]
    rfl

/-- C5: a client holds the schema address the facade had at creation time,
and a later `useSchema` call never changes the heap object at any address
that already existed — re-import allocates a fresh pair instead of mutating
the old one — so the client's snapshot dereferences to exactly what it did
before the re-import. -/
theorem client_schema_snapshot (h : Heap) (tg : Telegram)
    (schema : SchemaDescription) ( typePrefix servicePrefix : String)
    (h' : Heap) (tg' : Telegram) (tr : List BuildCall) (a : Nat)
    (hok : Telegram.useSchemaT h tg schema typePrefix servicePrefix =
      (.ok (h', tg'), tr))
    (ha : a < h.objs.length) :
    (Telegram.createClient tg).1.schema = tg.schema ∧
    h'.get? a = h.get? a := by
  refine ⟨rfl, ?_⟩
  obtain ⟨type, service, -, -, hh, -, -⟩ :=
    useSchemaT_ok h tg schema typePrefix servicePrefix h' tg' tr hok
  rw [hh]
  exact List.getElem?_append_left ha

/-- C5 witness: a client created when the stored schema was at address 0 of
a one-object heap still dereferences the same object after a second import
with prefixes "C.t" and "C.s". -/
theorem client_schema_snapshot_witness :
    (Telegram.createClient facModel0).1.schema = facModel0.schema ∧
    (Heap.mk (heap1.objs ++
        [⟨Node.branch "C.t" [], Node.branch "C.s" []⟩])).get? 0 =
      heap1.get? 0 :=
  client_schema_snapshot heap1 facModel0 ⟨some [], some []⟩ "C.t" "C.s"
    ⟨heap1.objs ++ [⟨Node.branch "C.t" [], Node.branch "C.s" []⟩]⟩
    ⟨sampleMT, tlModel, some 1⟩
    [⟨some [], none, Node.branch "C.t" [], false⟩,
     ⟨some [], none, Node.branch "C.s" [], true⟩]
    0 (by rfl) (by decide)

/-- C2 counterexample: `useSchema` performs no missing-mapping check of its
own.  With a Type Builder that never fails, importing a description whose
`methods` collection is undefined completes successfully and stores a
schema — so a `SchemaError` in the spec's scenario can only originate in
the external Type Builder, never in the importer itself. -/
theorem useSchema_no_own_check :
    (Telegram.useSchemaT heap0 facBlind ⟨some [], none⟩ "p2" "q2").1 =
      .ok (⟨[⟨Node.branch "p2" [], Node.branch "q2" []⟩]⟩,
           ⟨sampleMT, tlBlind, some 0⟩) := rfl

/-- C2 amended: with the spec-modelled Type Builder — which rejects a
missing mapping — a description lacking `constructors` or `methods` makes
`useSchema` fail with a `SchemaError` propagated from the builder call,
leaving the heap and the facade (in particular any previously stored
schema) unchanged and producing no `ImportedSchema`. -/
theorem useSchema_missing_mapping (h : Heap) (tg : Telegram)
    (schema : SchemaDescription) ( typePrefix servicePrefix : String)
    (hbt : tg.TL.TypeBuilder.buildTypes = buildTypesModel)
    (hmiss : schema.constructors = none ∨ schema.methods = none) :
    ∃ e, Telegram.useSchemaRun h tg schema typePrefix servicePrefix =
      (.error e, h, tg) := by
  cases hmiss with
  | inl hc =>
    exact ⟨SchemaError.missingMapping,
      by simp [Telegram.useSchemaRun, Telegram.useSchemaT, hbt, hc,
        buildTypesModel]⟩
  | inr hm =>
    cases hc1 : tg.TL.TypeBuilder.buildTypes schema.constructors none
        (Node.branch typePrefix []) false with
    | error e =>
      exact ⟨e, by simp [Telegram.useSchemaRun, Telegram.useSchemaT, hc1]⟩
    | ok type =>
      refine ⟨SchemaError.missingMapping, ?_⟩
      have hc2 : tg.TL.TypeBuilder.buildTypes schema.methods none
          (Node.branch servicePrefix []) true = .error .missingMapping := by
        rw [hbt, hm]
        rfl
      simp [Telegram.useSchemaRun, Telegram.useSchemaT, hc1, hc2]

/-- C2 witness: a concrete description with `methods` undefined fails with
a propagated `SchemaError`, leaving heap and facade unchanged. -/
theorem useSchema_missing_mapping_witness :
    ∃ e, Telegram.useSchemaRun heap0 facModel ⟨some [], none⟩ "p3" "q3" =
      (.error e, heap0, facModel) :=
  useSchema_missing_mapping heap0 facModel ⟨some [], none⟩ "p3" "q3"
    rfl (Or.inr rfl)

/-- C3 counterexample: on a freshly constructed facade, with no prior
import, `createClient` does not fail — it returns a `TelegramClient` whose
schema reference is still undefined.  No `NotInitializedError` check exists
in the source (the spec's design notes record this as an open question). -/
theorem createClient_fresh_returns :
    Telegram.construct (some sampleMT) (some tlBlind) = .ok facBlind ∧
    (Telegram.createClient facBlind).1 =
      { schema := none, MTProto := sampleMT, TL := tlBlind } := ⟨rfl, rfl⟩

/-- C3 amended: calling `createClient` on a freshly constructed facade,
before any `useSchema` call, returns a `TelegramClient` bound to an
undefined schema together with the two layer references, rather than
failing with `NotInitializedError`. -/
theorem createClient_fresh (m : MTProtoLayer) (t : TLLayer) (tg : Telegram)
    (hc : Telegram.construct (some m) (some t) = .ok tg) :
    (Telegram.createClient tg).1 =
      { schema := none, MTProto := m, TL := t } := by
  have h2 : Except.ok (ε := String)
      { MTProto := m, TL := t, schema := none : Telegram } = .ok tg := hc
  cases h2
  rfl

/-- C3 witness: a concrete freshly constructed facade yields a client with
an undefined schema. -/
theorem createClient_fresh_witness :
    (Telegram.createClient facModel).1 =
      { schema := none, MTProto := sampleMT, TL := tlModel } :=
  createClient_fresh sampleMT tlModel facModel rfl

end TelegramJS
